import Mathlib

/-!
Shallow embedding of the two diffusion pipelines of this repository:

* `StableDiffusionImg2ImgPipeline`
  (src/ppdiffusers/ppdiffusers/pipelines/stable_diffusion/pipeline_stable_diffusion_img2img.py)
* `ConsistencyModelPipeline`
  (src/ppdiffusers/ppdiffusers/pipelines/consistency_models/pipeline_consistency_models.py)

Tensors are modelled as batches of rows of rationals (`Tensor := List (List ℚ)`),
the outer list being the batch dimension: `paddle.concat(axis=0)` is list append,
chunking is take/drop on the outer list, scalar multiplication maps over all
entries.  External collaborators (U-Net, VAE, scheduler internals, randn) are
opaque function parameters.  Fallible code returns `Except String`, paired with
a trace of collaborator calls so that "raises before any model call / tensor
allocation" claims are statable.
-/

/-- A paddle tensor: a batch (outer list) of flattened rows of rationals. -/
def Tensor : Type := List (List ℚ)

deriving instance DecidableEq, Inhabited for Tensor

deriving instance DecidableEq for Except

/-- Elementwise multiplication of a tensor by a scalar (`t * c` in paddle). -/
def Tensor.scale (c : ℚ) (t : Tensor) : Tensor :=
  t.map (fun row => row.map (fun x => x * c))

/-- Batch-dimension concatenation, `paddle.concat(axis=0)`. -/
def Tensor.cat (a b : Tensor) : Tensor := List.append a b

/-- Python `int()` applied to a rational: truncation toward zero. -/
def pyTrunc (q : ℚ) : ℤ := if 0 ≤ q then ⌊q⌋ else ⌈q⌉

/-- Python `round()` applied to a rational: nearest integer, ties to even. -/
def pyRound (q : ℚ) : ℤ :=
  let f := ⌊q⌋
  let r := q - (f : ℚ)
  if r < 1/2 then f
  else if 1/2 < r then f + 1
  else if Even f then f else f + 1

/-- A Python sequence value tagged with its runtime kind.  Python `==` (and
hence `!=`) on sequences compares the kind first: a `list` never equals a
`tuple`, whatever the elements.  paddle's `Tensor.shape` is a `list` of ints,
while the consistency pipeline builds its `expected_shape` as a tuple
literal, so the two kinds must be distinguished to model the comparison. -/
inductive PySeq : Type
  | pylist (xs : List ℕ) : PySeq
  | pytuple (xs : List ℕ) : PySeq
deriving DecidableEq

/-- The argument accepted for `generator`: `None`, a single generator handle,
or a list of generator handles (handles are opaque ids). -/
inductive GenArg : Type
  | none : GenArg
  | single (g : ℕ) : GenArg
  | list (gs : List ℕ) : GenArg
deriving DecidableEq

/-- Collaborator calls recorded in traces: sampling a fresh noise tensor,
configuring the scheduler, a U-Net forward pass, a scheduler step, a VAE
encode, and a text-encoder forward pass. -/
inductive Eff : Type
  | randn : Eff
  | setTimesteps : Eff
  | unet : Eff
  | schedStep : Eff
  | vaeEncode : Eff
  | textEncode : Eff
deriving DecidableEq

namespace ConsistencyModel

/-- `ConsistencyModelPipeline.prepare_latents`.  `randn` stands for the
`randn_tensor` collaborator (a function of the requested shape).  The
generator-list length check happens first; if no latents are supplied a fresh
noise tensor is sampled, otherwise the supplied latents are dtype-cast (a
value-preserving operation in this model); in either case the result is
multiplied by the scheduler's `init_noise_sigma`.  The second component traces
the collaborator calls made. -/
def prepare_latents (batch_size num_channels height width : ℕ)
    (generator : GenArg) (init_noise_sigma : ℚ)
    (randn : List ℕ → Tensor) (latents : Option Tensor) :
    Except String Tensor × List Eff :=
  let shape := [batch_size, num_channels, height, width]
  match generator with
  | GenArg.list gs =>
    if gs.length ≠ batch_size then
      (Except.error "generator list length mismatch", [])
    else
      match latents with
      | none => (Except.ok (Tensor.scale init_noise_sigma (randn shape)), [Eff.randn])
      | some l => (Except.ok (Tensor.scale init_noise_sigma l), [])
  | _ =>
    match latents with
    | none => (Except.ok (Tensor.scale init_noise_sigma (randn shape)), [Eff.randn])
    | some l => (Except.ok (Tensor.scale init_noise_sigma l), [])

/-- `ConsistencyModelPipeline.check_inputs`.  Timesteps are either a count
(`num_inference_steps`) or an explicit list; exactly the `None`/`None`
combination is an error (both supplied is only a logged warning).  For a
supplied latents tensor, the source compares `latents.shape` — a Python
`list` on a paddle tensor — with `!=` against `expected_shape`, a `tuple`
literal `(batch_size, 3, img_size, img_size)` (channel count hard-coded to
3); the kinds differ, so the comparison is modelled on `PySeq`, where a
`pylist` never equals a `pytuple`.  `callback_steps` must be a positive
integer. -/
def check_inputs (num_inference_steps : Option ℕ) (timesteps : Option (List ℤ))
    (latents_shape : Option (List ℕ)) (batch_size img_size : ℕ)
    (callback_steps : Option ℤ) : Except String Unit := do
  if num_inference_steps = none ∧ timesteps = none then
    throw "Exactly one of num_inference_steps or timesteps must be supplied."
  match latents_shape with
  | some sh =>
    if PySeq.pylist sh ≠ PySeq.pytuple [batch_size, 3, img_size, img_size] then
      throw "The shape of latents is not the expected shape."
  | none => pure ()
  match callback_steps with
  | none => throw "callback_steps has to be a positive integer"
  | some k => if k ≤ 0 then throw "callback_steps has to be a positive integer"

end ConsistencyModel

namespace Img2Img

/-- The `prompt` argument: a string, a list of strings, `None`, or a value of
some other (invalid) runtime type. -/
inductive PromptArg : Type
  | none : PromptArg
  | str (s : String) : PromptArg
  | list (l : List String) : PromptArg
  | other : PromptArg
deriving DecidableEq

/-- `StableDiffusionImg2ImgPipeline.check_inputs`.  Checks, in source order:
`strength` in `[0,1]`; `callback_steps` a positive integer; not both and not
neither of `prompt`/`prompt_embeds`; `prompt` of type str or list; not both
`negative_prompt` and `negative_prompt_embeds`; matching shapes when both
embedding tensors are given.  Embedding arguments are represented by their
shapes (`Option (List ℕ)`), `negative_prompt` by presence. -/
def check_inputs (prompt : PromptArg) (strength : ℚ) (callback_steps : Option ℤ)
    (negative_prompt : Bool) (prompt_embeds : Option (List ℕ))
    (negative_prompt_embeds : Option (List ℕ)) : Except String Unit := do
  if strength < 0 ∨ strength > 1 then
    throw "The value of strength should in [0.0, 1.0]"
  match callback_steps with
  | none => throw "callback_steps has to be a positive integer"
  | some k => if k ≤ 0 then throw "callback_steps has to be a positive integer"
  if prompt ≠ PromptArg.none ∧ prompt_embeds ≠ none then
    throw "Cannot forward both prompt and prompt_embeds."
  else if prompt = PromptArg.none ∧ prompt_embeds = none then
    throw "Provide either prompt or prompt_embeds."
  else if prompt ≠ PromptArg.none ∧ prompt = PromptArg.other then
    throw "prompt has to be of type str or list"
  if negative_prompt ∧ negative_prompt_embeds ≠ none then
    throw "Cannot forward both negative_prompt and negative_prompt_embeds."
  match prompt_embeds, negative_prompt_embeds with
  | some pe, some npe =>
    if pe ≠ npe then
      throw "prompt_embeds and negative_prompt_embeds must have the same shape"
  | _, _ => pure ()

/-- `StableDiffusionImg2ImgPipeline.get_timesteps`.  `schedule` is the
scheduler's `timesteps` attribute after `set_timesteps`, `order` the
scheduler's step multiplicity.  `int(num_inference_steps * strength)` is
Python truncation, embedded by `pyTrunc`. -/
def get_timesteps (num_inference_steps : ℕ) (strength : ℚ)
    (schedule : List ℤ) (order : ℕ) : List ℤ × ℤ :=
  let init_timestep : ℤ :=
    min (pyTrunc ((num_inference_steps : ℚ) * strength)) (num_inference_steps : ℤ)
  let t_start : ℤ := max ((num_inference_steps : ℤ) - init_timestep) 0
  (schedule.drop (t_start.toNat * order), (num_inference_steps : ℤ) - t_start)

/-- The spec's formula for the effective step count, stated with `round`
(`effective_step_count = min(round(num_inference_steps * strength),
num_inference_steps)`); kept separate from `get_timesteps`, which embeds the
source's `int(...)`, so that the two can be compared. -/
def specEffectiveStepCount (num_inference_steps : ℕ) (strength : ℚ) : ℤ :=
  min (pyRound ((num_inference_steps : ℚ) * strength)) (num_inference_steps : ℤ)

/-- The shape used when a 2-D `Tensor` stands in for an embeddings argument in
`check_inputs` shape comparisons. -/
def shapeOf (t : Tensor) : List ℕ := [t.length, (t.headD []).length]

/-- An `image` argument: its channel dimension (`image.shape[1]`) and its
values as a batch of rows. -/
structure SDImage : Type where
  channels : ℕ
  data : Tensor
deriving DecidableEq

/-- The opaque collaborators of `StableDiffusionImg2ImgPipeline`: scheduler
order and timestep generation, VAE encoding (per row, given a generator id),
the VAE scaling factor, scheduler noise injection, the fresh-noise source, the
U-Net, scheduler input scaling and step, and the text-encoder outputs for the
positive and negative prompts. -/
structure Env : Type where
  order : ℕ
  setTimesteps : ℕ → List ℤ
  encodeSample : List ℚ → ℕ → List ℚ
  scaling_factor : ℚ
  add_noise : Tensor → Tensor → List ℤ → Tensor
  randnRow : ℕ → List ℚ
  unet : Tensor → ℤ → Tensor → Tensor
  scale_model_input : Tensor → ℤ → Tensor
  sched_step : Tensor → ℤ → Tensor → Tensor
  encodePos : Tensor
  encodeNeg : Tensor

/-- The encoding stage of `StableDiffusionImg2ImgPipeline.prepare_latents`
(lines 443-461): dtype-cast (value-preserving here), then either pass a
4-channel image through as latents unchanged, or — after checking a
generator list against the effective batch size — VAE-encode and multiply by
the VAE scaling factor. -/
def initLatentsPre (env : Env) (image : SDImage)
    (batch_size num_images_per_prompt : ℕ) (generator : GenArg) :
    Except String Tensor × List Eff :=
  let bs := batch_size * num_images_per_prompt
  if image.channels = 4 then
    (Except.ok image.data, [])
  else
    match generator with
    | GenArg.list gs =>
      if gs.length ≠ bs then
        (Except.error "generator list length mismatch", [])
      else
        let init := (List.range bs).map
          (fun i => env.encodeSample (image.data.getD i []) (gs.getD i 0))
        (Except.ok (Tensor.scale env.scaling_factor init), [Eff.vaeEncode])
    | GenArg.single g =>
      (Except.ok (Tensor.scale env.scaling_factor
        (image.data.map (fun row => env.encodeSample row g))), [Eff.vaeEncode])
    | GenArg.none =>
      (Except.ok (Tensor.scale env.scaling_factor
        (image.data.map (fun row => env.encodeSample row 0))), [Eff.vaeEncode])

/-- The replication stage of `prepare_latents` (lines 462-482): if the
effective batch size exceeds the available latents and is an exact multiple,
tile them (`paddle.concat([init_latents] * additional, axis=0)`); a non-exact
multiple is a `ValueError`; otherwise the latents pass through
(`paddle.concat([init_latents])`). -/
def replicateLatents (bs : ℕ) (init_latents : Tensor) : Except String Tensor :=
  if bs > init_latents.length ∧ bs % init_latents.length = 0 then
    Except.ok (List.flatten (List.replicate (bs / init_latents.length) init_latents))
  else if bs > init_latents.length ∧ bs % init_latents.length ≠ 0 then
    Except.error "Cannot duplicate image batch to text prompts"
  else
    Except.ok init_latents

/-- `StableDiffusionImg2ImgPipeline.prepare_latents`: encoding stage, then
replication stage, then `randn_tensor` noise of the same shape and
`scheduler.add_noise` keyed to the starting timestep. -/
def prepare_latents (env : Env) (image : SDImage) (timestep : List ℤ)
    (batch_size num_images_per_prompt : ℕ) (generator : GenArg) :
    Except String Tensor × List Eff :=
  let bs := batch_size * num_images_per_prompt
  match initLatentsPre env image batch_size num_images_per_prompt generator with
  | (Except.error e, tr) => (Except.error e, tr)
  | (Except.ok init_latents, tr) =>
    match replicateLatents bs init_latents with
    | Except.error e => (Except.error e, tr)
    | Except.ok init2 =>
      let noise := (List.range init2.length).map env.randnRow
      (Except.ok (env.add_noise init2 noise timestep), tr ++ [Eff.randn])

/-- `do_classifier_free_guidance = guidance_scale > 1.0` (line 590). -/
def do_classifier_free_guidance (guidance_scale : ℚ) : Bool :=
  guidance_scale > 1

/-- Lines 628-629: the latent batch is duplicated
(`paddle.concat(x=[latents] * 2)`) exactly when classifier-free guidance is
enabled. -/
def latent_model_input (guidance_scale : ℚ) (latents : Tensor) : Tensor :=
  if do_classifier_free_guidance guidance_scale then Tensor.cat latents latents
  else latents

/-- The classifier-free-guidance recombination rule as the spec states it:
`uncond + guidance_scale * (cond - uncond)`, elementwise over matching
tensors. -/
def cfg_rule (guidance_scale : ℚ) (uncond cond : Tensor) : Tensor :=
  List.zipWith
    (fun u c => List.zipWith (fun a b => a + guidance_scale * (b - a)) u c)
    uncond cond

/-- Lines 642-646: chunk the combined prediction into its unconditional and
conditional halves and recombine them with the guidance rule. -/
def cfgCombine (guidance_scale : ℚ) (noise_pred : Tensor) : Tensor :=
  cfg_rule guidance_scale (noise_pred.take (noise_pred.length / 2))
    (noise_pred.drop (noise_pred.length / 2))

/-- Lines 320-333 of `_encode_prompt`: when guidance is on, the negative and
positive embeddings are concatenated (negative first) into a single batch;
otherwise only the positive embedding is used. -/
def encode_prompt_combined (do_cfg : Bool) (pos neg : Tensor) : Tensor :=
  if do_cfg then Tensor.cat neg pos else pos

/-- One iteration's noise prediction (lines 626-646): optional batch
duplication, scheduler input scaling, the U-Net call, and — when guidance is
enabled — the guidance recombination. -/
def step_noise_pred (env : Env) (guidance_scale : ℚ)
    (prompt_embeds latents : Tensor) (t : ℤ) : Tensor :=
  let inp := latent_model_input guidance_scale latents
  let inp2 := env.scale_model_input inp t
  let noise_pred := env.unet inp2 t prompt_embeds
  if do_classifier_free_guidance guidance_scale then
    cfgCombine guidance_scale noise_pred
  else noise_pred

/-- The img2img denoising loop (lines 625-661), carrying the iteration index.
Returns the final latents and the list of iteration indices at which the
callback was invoked.  The callback fires when the progress-bar condition
(`i == len(timesteps)-1 or (i+1 > num_warmup_steps and (i+1) % order == 0)`)
holds, a callback is present, and `i % callback_steps == 0`. -/
def denoising_loop (env : Env) (guidance_scale : ℚ) (prompt_embeds : Tensor)
    (last_index : ℕ) (num_warmup_steps : ℤ) (cb : Bool) (callback_steps : ℤ) :
    ℕ → Tensor → List ℤ → Tensor × List ℕ
  | _, latents, [] => (latents, [])
  | i, latents, t :: ts =>
    let noise_pred := step_noise_pred env guidance_scale prompt_embeds latents t
    let latents2 := env.sched_step noise_pred t latents
    let fires : Bool :=
      decide ((i = last_index ∨
        ((i : ℤ) + 1 > num_warmup_steps ∧ ((i : ℤ) + 1) % (env.order : ℤ) = 0)) ∧
        cb = true ∧ (i : ℤ) % callback_steps = 0)
    let rest := denoising_loop env guidance_scale prompt_embeds last_index
      num_warmup_steps cb callback_steps (i + 1) latents2 ts
    (rest.1, (if fires then [i] else []) ++ rest.2)

/-- The call parameters named by the spec's invariant: strength, step count,
guidance scale, batch size, output format. -/
structure CallParams : Type where
  strength : ℚ
  num_inference_steps : ℤ
  guidance_scale : ℚ
  batch_size : ℕ
  output_type : String
deriving DecidableEq

/-- The observable outcome of an img2img invocation, truncated after the
denoising loop: final latents, callback invocation indices, and the call
parameters as the loop phase observed them. -/
structure SDResult : Type where
  latents : Tensor
  callback_iters : List ℕ
  loopParams : CallParams
deriving DecidableEq

/-- `StableDiffusionImg2ImgPipeline.__call__`, through the denoising loop:
validation, call-parameter definition, prompt encoding, timestep setup and
truncation, latent preparation, and the loop.  The second component is the
trace of collaborator calls. -/
def sdCall (env : Env) (prompt : PromptArg) (image : SDImage) (strength : ℚ)
    (num_inference_steps : ℕ) (guidance_scale : ℚ) (negative_prompt : Bool)
    (num_images_per_prompt : ℕ) (generator : GenArg)
    (prompt_embeds negative_prompt_embeds : Option Tensor)
    (output_type : String) (cb : Bool) (callback_steps : Option ℤ) :
    Except String SDResult × List Eff :=
  match check_inputs prompt strength callback_steps negative_prompt
      (prompt_embeds.map shapeOf) (negative_prompt_embeds.map shapeOf) with
  | Except.error e => (Except.error e, [])
  | Except.ok _ =>
    let batch_size : ℕ :=
      match prompt with
      | PromptArg.str _ => 1
      | PromptArg.list l => l.length
      | _ => (prompt_embeds.getD []).length
    let do_cfg := do_classifier_free_guidance guidance_scale
    let pos := prompt_embeds.getD env.encodePos
    let neg := negative_prompt_embeds.getD env.encodeNeg
    let embeds := encode_prompt_combined do_cfg pos neg
    let encTrace : List Eff :=
      if prompt_embeds = none ∨ (do_cfg ∧ negative_prompt_embeds = none) then
        [Eff.textEncode]
      else []
    let schedule := env.setTimesteps num_inference_steps
    let tpair := get_timesteps num_inference_steps strength schedule env.order
    let timesteps := tpair.1
    let nis2 := tpair.2
    let latent_timestep := (timesteps.take 1).flatMap
      (fun t => List.replicate (batch_size * num_images_per_prompt) t)
    match prepare_latents env image latent_timestep batch_size
        num_images_per_prompt generator with
    | (Except.error e, tr) =>
      (Except.error e, encTrace ++ [Eff.setTimesteps] ++ tr)
    | (Except.ok latents0, tr) =>
      let num_warmup_steps : ℤ := (timesteps.length : ℤ) - nis2 * (env.order : ℤ)
      let res := denoising_loop env guidance_scale embeds (timesteps.length - 1)
        num_warmup_steps cb (callback_steps.getD 1) 0 latents0 timesteps
      (Except.ok
        { latents := res.1
          callback_iters := res.2
          loopParams :=
            { strength := strength
              num_inference_steps := nis2
              guidance_scale := guidance_scale
              batch_size := batch_size
              output_type := output_type } },
       encTrace ++ [Eff.setTimesteps] ++ tr ++
         timesteps.flatMap (fun _ => [Eff.unet, Eff.schedStep]))

end Img2Img

namespace ConsistencyModel

/-- A caller-supplied `latents` argument: its full 4-D shape (what
`check_inputs` compares) and its values as a batch of rows. -/
structure CMLatents : Type where
  shape : List ℕ
  data : Tensor
deriving DecidableEq

/-- The opaque collaborators of `ConsistencyModelPipeline`: the U-Net's
configured channel count and sample size, the scheduler's initial noise sigma,
timestep configuration from an explicit list or from a count, the fresh-noise
source, the U-Net, and scheduler input scaling and step. -/
structure CMEnv : Type where
  in_channels : ℕ
  sample_size : ℕ
  init_noise_sigma : ℚ
  schedSetFromList : List ℤ → List ℤ
  schedSetFromCount : ℕ → List ℤ
  randn : List ℕ → Tensor
  unet : Tensor → ℤ → Tensor
  scale_model_input : Tensor → ℤ → Tensor
  sched_step : Tensor → ℤ → Tensor → Tensor

/-- The consistency-model sampling loop (lines 205-217), carrying the
iteration index.  Returns the final sample and the list of iteration indices
at which the callback was invoked; the callback fires when a callback is
present and `i % callback_steps == 0`. -/
def cm_loop (env : CMEnv) (cb : Bool) (callback_steps : ℤ) :
    ℕ → Tensor → List ℤ → Tensor × List ℕ
  | _, sample, [] => (sample, [])
  | i, sample, t :: ts =>
    let scaled_sample := env.scale_model_input sample t
    let model_output := env.unet scaled_sample t
    let sample2 := env.sched_step model_output t sample
    let fires : Bool := decide (cb = true ∧ (i : ℤ) % callback_steps = 0)
    let rest := cm_loop env cb callback_steps (i + 1) sample2 ts
    (rest.1, (if fires then [i] else []) ++ rest.2)

/-- The observable outcome of a consistency invocation, truncated after the
sampling loop: final sample, callback invocation indices, and the loop's
total step count (the `num_inference_steps` in scope at the loop). -/
structure CMResult : Type where
  sample : Tensor
  callback_iters : List ℕ
  loop_total : ℕ
deriving DecidableEq

/-- `ConsistencyModelPipeline.__call__`, through the sampling loop:
validation, latent preparation, class-label preparation omitted (it touches no
claimed behaviour), timestep configuration — an explicit `timesteps` list wins
over `num_inference_steps`, and then the step count is re-read from the
scheduler — and the loop.  The second component traces collaborator calls. -/
def cmCall (env : CMEnv) (batch_size : ℕ) (num_inference_steps : Option ℕ)
    (timesteps : Option (List ℤ)) (generator : GenArg)
    (latents : Option CMLatents) (cb : Bool) (callback_steps : Option ℤ) :
    Except String CMResult × List Eff :=
  let img_size := env.sample_size
  match check_inputs num_inference_steps timesteps (latents.map (fun l => l.shape))
      batch_size img_size callback_steps with
  | Except.error e => (Except.error e, [])
  | Except.ok _ =>
    match prepare_latents batch_size env.in_channels img_size img_size generator
        env.init_noise_sigma env.randn (latents.map (fun l => l.data)) with
    | (Except.error e, tr) => (Except.error e, tr)
    | (Except.ok sample0, tr) =>
      let spair : List ℤ × ℕ :=
        match timesteps with
        | some tlist =>
          let s := env.schedSetFromList tlist
          (s, s.length)
        | none =>
          match num_inference_steps with
          | some n => (env.schedSetFromCount n, n)
          | none => ([], 0)
      let res := cm_loop env cb (callback_steps.getD 1) 0 sample0 spair.1
      (Except.ok
        { sample := res.1
          callback_iters := res.2
          loop_total := spair.2 },
       tr ++ [Eff.setTimesteps] ++
         spair.1.flatMap (fun _ => [Eff.unet, Eff.schedStep]))

end ConsistencyModel

/-!
Claim theorems.
-/

/-- C1 (counterexample): at `num_inference_steps = 10`, `strength = 14/25`,
a 10-entry schedule and order 1, the adapter returns a remaining step count
of 5, while the claim's `round`-based formula predicts a remaining count of
6 — `round(10 * 14/25) = round(5.6) = 6` but the code truncates with
`int(...)` to 5. -/
theorem C1_counterexample :
    (Img2Img.get_timesteps 10 (14/25) ((List.range 10).reverse.map Int.ofNat) 1).2 = 5 ∧
    (10 : ℤ) - max (10 - Img2Img.specEffectiveStepCount 10 (14/25)) 0 = 6 ∧
    (5 : ℤ) ≠ 6 := by
  refine ⟨?_, ?_, by decide⟩
  · norm_num [Img2Img.get_timesteps, pyTrunc]
  · norm_num [Img2Img.specEffectiveStepCount, pyRound, Int.floor_eq_iff]

/-- C1 (amended): for every strength in `[0,1]` and positive
`num_inference_steps`, with the scheduler holding `steps * order` timesteps,
the adapter computes `effective_step_count = min(int(steps * strength),
steps)` — Python `int` truncation, not `round` — sets
`start_index = max(steps - effective_step_count, 0)`, consumes the schedule
tail beginning at `start_index` scaled by the scheduler's order, returns a
remaining count of `steps - start_index`, and the consumed tail has exactly
`(steps - start_index) * order` entries. -/
theorem C1_theorem (steps order : ℕ) (strength : ℚ) (schedule : List ℤ)
    (h0 : 0 ≤ strength) (h1 : strength ≤ 1) (hn : 0 < steps)
    (hs : schedule.length = steps * order) :
    (Img2Img.get_timesteps steps strength schedule order).1 =
      schedule.drop
        ((max ((steps : ℤ) - min (pyTrunc ((steps : ℚ) * strength)) (steps : ℤ)) 0).toNat *
          order) ∧
    (Img2Img.get_timesteps steps strength schedule order).2 =
      (steps : ℤ) - max ((steps : ℤ) - min (pyTrunc ((steps : ℚ) * strength)) (steps : ℤ)) 0 ∧
    ((Img2Img.get_timesteps steps strength schedule order).1).length =
      ((Img2Img.get_timesteps steps strength schedule order).2).toNat * order := by
  have hq : 0 ≤ (steps : ℚ) * strength := mul_nonneg (by positivity) h0
  have hfl : 0 ≤ pyTrunc ((steps : ℚ) * strength) := by
    rw [pyTrunc, if_pos hq]
    exact Int.floor_nonneg.mpr hq
  have heff0 : 0 ≤ min (pyTrunc ((steps : ℚ) * strength)) (steps : ℤ) :=
    le_min hfl (by exact_mod_cast Nat.zero_le steps)
  have heffle : min (pyTrunc ((steps : ℚ) * strength)) (steps : ℤ) ≤ (steps : ℤ) :=
    min_le_right _ _
  simp only [Img2Img.get_timesteps]
  refine ⟨by trivial, by trivial, ?_⟩
  rw [List.length_drop, hs]
  set eff := min (pyTrunc ((steps : ℚ) * strength)) (steps : ℤ) with heq
  have hmax : max ((steps : ℤ) - eff) 0 = (steps : ℤ) - eff := max_eq_left (by omega)
  rw [hmax]
  have h2 : ((steps : ℤ) - ((steps : ℤ) - eff)).toNat = steps - ((steps : ℤ) - eff).toNat := by
    omega
  rw [h2, Nat.sub_mul]

/-- C1 (witness): the amended theorem applied at `steps = 10`,
`strength = 1/2`, a concrete 10-entry schedule and order 1. -/
theorem C1_witness :
    ((Img2Img.get_timesteps 10 (1/2) ((List.range 10).reverse.map Int.ofNat) 1).1).length =
      ((Img2Img.get_timesteps 10 (1/2) ((List.range 10).reverse.map Int.ofNat) 1).2).toNat *
        1 :=
  (C1_theorem 10 1 (1/2) ((List.range 10).reverse.map Int.ofNat)
    (by norm_num) (by norm_num) (by norm_num) (by decide)).2.2

/-- C2 (counterexample): with `init_noise_sigma = 2` and caller-supplied
latents `[[1]]`, the consistency pipeline's `prepare_latents` returns
`[[2]]` — the supplied latents are scaled by `init_noise_sigma`, not merely
dtype-cast as the claim states. -/
theorem C2_counterexample :
    (ConsistencyModel.prepare_latents 1 3 2 2 GenArg.none 2 (fun _ => [[5]])
        (some [[1]])).1 = Except.ok [[2]] ∧
    (ConsistencyModel.prepare_latents 1 3 2 2 GenArg.none 2 (fun _ => [[5]])
        (some [[1]])).1 ≠ Except.ok [[1]] := by
  constructor
  · norm_num [ConsistencyModel.prepare_latents, Tensor.scale]
  · norm_num [ConsistencyModel.prepare_latents, Tensor.scale]
    decide

/-- C2 (amended): when the caller supplies a latents tensor (and the
generator argument is not a mismatched list), the consistency pipeline's
`prepare_latents` dtype-casts it, adds no noise — the result is independent
of the noise source and the trace holds no `randn` call — but does scale it
by the scheduler's `init_noise_sigma`, exactly as it scales fresh noise. -/
theorem C2_theorem (batch_size num_channels height width : ℕ) (generator : GenArg)
    (sigma : ℚ) (randn1 randn2 : List ℕ → Tensor) (l : Tensor)
    (hgen : ∀ gs, generator = GenArg.list gs → gs.length = batch_size) :
    ConsistencyModel.prepare_latents batch_size num_channels height width generator
      sigma randn1 (some l) = (Except.ok (Tensor.scale sigma l), []) ∧
    ConsistencyModel.prepare_latents batch_size num_channels height width generator
        sigma randn2 (some l) =
      ConsistencyModel.prepare_latents batch_size num_channels height width generator
        sigma randn1 (some l) := by
  cases generator with
  | none => exact ⟨rfl, rfl⟩
  | single g => exact ⟨rfl, rfl⟩
  | list gs =>
    have hlen : gs.length = batch_size := hgen gs rfl
    simp [ConsistencyModel.prepare_latents, hlen]

/-- C2 (witness): the amended theorem applied with a length-1 generator
list, `init_noise_sigma = 2` and supplied latents `[[1]]`. -/
theorem C2_witness :
    ConsistencyModel.prepare_latents 1 3 2 2 (GenArg.list [7]) 2 (fun _ => [[5]])
      (some [[1]]) = (Except.ok (Tensor.scale 2 [[1]]), []) :=
  (C2_theorem 1 3 2 2 (GenArg.list [7]) 2 (fun _ => [[5]]) (fun _ => [[9]]) [[1]]
    (by intro gs h; cases h; rfl)).1

/-- Concrete img2img collaborator bundle used by witnesses and
counterexamples: identity-like collaborators over tiny tensors. -/
def testEnv : Img2Img.Env :=
  { order := 1
    setTimesteps := fun n => (List.range n).reverse.map Int.ofNat
    encodeSample := fun row _ => row
    scaling_factor := 1
    add_noise := fun a _ _ => a
    randnRow := fun _ => [0]
    unet := fun inp _ _ => inp
    scale_model_input := fun l _ => l
    sched_step := fun _ _ l => l
    encodePos := [[1]]
    encodeNeg := [[0]] }

/-- Concrete consistency-model collaborator bundle used by witnesses and
counterexamples. -/
def testCMEnv : ConsistencyModel.CMEnv :=
  { in_channels := 3
    sample_size := 2
    init_noise_sigma := 1
    schedSetFromList := fun ts => ts
    schedSetFromCount := fun n => (List.range n).reverse.map Int.ofNat
    randn := fun _ => []
    unet := fun s _ => s
    scale_model_input := fun s _ => s
    sched_step := fun _ _ s => s }

/-- C9 (counterexample): in the image2image pipeline, when the image already
has 4 channels (latent passthrough), `prepare_latents` succeeds even though a
generator list of length 3 was supplied against an effective batch size of 1:
the generator-list length check is skipped on this path, so no `ValueError`
is raised. -/
theorem C9_counterexample :
    ((Img2Img.prepare_latents testEnv ⟨4, [[1]]⟩ [0] 1 1 (GenArg.list [0, 1, 2])).1).isOk =
      true := by
  decide

/-- C9 (amended): the consistency pipeline raises the generator-list
mismatch `ValueError` before any latent allocation (empty collaborator
trace) for every input, but the image2image pipeline does so only on the
encoding path — when the image is not already 4-channel latents; the latent
passthrough path performs no generator-list check. -/
theorem C9_theorem (b c h w : ℕ) (gs : List ℕ) (sigma : ℚ)
    (randn : List ℕ → Tensor) (latents : Option Tensor) (env : Img2Img.Env)
    (image : Img2Img.SDImage) (ts : List ℤ) (bsz n : ℕ)
    (h1 : gs.length ≠ b) (h2 : image.channels ≠ 4) (h3 : gs.length ≠ bsz * n) :
    ConsistencyModel.prepare_latents b c h w (GenArg.list gs) sigma randn latents =
      (Except.error "generator list length mismatch", []) ∧
    Img2Img.prepare_latents env image ts bsz n (GenArg.list gs) =
      (Except.error "generator list length mismatch", []) := by
  constructor
  · simp [ConsistencyModel.prepare_latents, h1]
  · simp [Img2Img.prepare_latents, Img2Img.initLatentsPre, h2, h3]

/-- C9 (witness): the amended theorem applied with a length-3 generator
list, batch size 1, and a 5-channel (non-latent) image. -/
theorem C9_witness :
    ConsistencyModel.prepare_latents 1 3 2 2 (GenArg.list [0, 1, 2]) 1 (fun _ => [[0]])
      none = (Except.error "generator list length mismatch", []) :=
  (C9_theorem 1 3 2 2 [0, 1, 2] 1 (fun _ => [[0]]) none testEnv ⟨5, [[1]]⟩ [0] 1 1
    (by decide) (by decide) (by decide)).1

/-- C8: in image2image latent preparation, when the effective batch size
`batch_size * num_images_per_prompt` exceeds the number of source latents
produced by the encoding stage, the latents are replicated exactly when the
effective batch size is an exact multiple of the source count — yielding a
latent batch dimension equal to the effective batch size (given that the
scheduler's `add_noise` collaborator preserves the batch dimension) — and a
non-exact multiple raises a `ValueError`. -/
theorem C8_theorem (env : Img2Img.Env) (image : Img2Img.SDImage) (ts : List ℤ)
    (b n src : ℕ) (gen : GenArg) (init : Tensor) (tr : List Eff)
    (hpre : Img2Img.initLatentsPre env image b n gen = (Except.ok init, tr))
    (hsrc : init.length = src) (hpos : 0 < src) (hbs : b * n > src)
    (haddn : ∀ a c t2, (env.add_noise a c t2).length = a.length) :
    ((b * n) % src = 0 →
      ((Img2Img.prepare_latents env image ts b n gen).1).map List.length =
        Except.ok (b * n)) ∧
    ((b * n) % src ≠ 0 →
      (Img2Img.prepare_latents env image ts b n gen).1 =
        Except.error "Cannot duplicate image batch to text prompts") := by
  subst hsrc
  constructor
  · intro hm
    have hdvd : init.length ∣ b * n := Nat.dvd_of_mod_eq_zero hm
    simp only [Img2Img.prepare_latents, hpre, Img2Img.replicateLatents, hbs, hm,
      ne_eq, not_true_eq_false, and_true, and_false, if_true, if_false, gt_iff_lt,
      if_pos (And.intro hbs hm)]
    simp [Except.map, haddn, List.length_flatten, Function.comp, List.sum_replicate,
      smul_eq_mul, Nat.div_mul_cancel hdvd]
  · intro hm
    simp [Img2Img.prepare_latents, hpre, Img2Img.replicateLatents, hbs, hm]

/-- C8 (witness): the theorem applied with one 4-channel source latent and
effective batch size 3 (exact multiple), yielding batch dimension 3. -/
theorem C8_witness :
    ((Img2Img.prepare_latents testEnv ⟨4, [[1]]⟩ [0] 1 3 GenArg.none).1).map List.length =
      Except.ok 3 :=
  (C8_theorem testEnv ⟨4, [[1]]⟩ [0] 1 3 1 GenArg.none [[1]] [] (by decide) (by decide)
    (by decide) (by decide) (fun _ _ _ => rfl)).1 (by decide)

/-- C10: with the shape comparison modelled faithfully — paddle's
list-valued `latents.shape` compared with `!=` against the tuple
`expected_shape` — consistency-pipeline validation rejects every
caller-supplied latents tensor, whatever its shape: a list never equals a
tuple.  In particular, at `batch_size = 1`, `sample_size = 2`, a supplied
latents of shape `[1, 3, 2, 2]` — exactly the shape the claim says is
accepted — is rejected with the shape `ValueError`, and so is one matching
the internally generated shape `[1, in_channels, 2, 2]` of an
`in_channels = 7` model.  This contradicts the pipeline's own docstring,
which documents `latents` as a usable input. -/
theorem C10_theorem (b img nsteps : ℕ) (sh : List ℕ) (cbs : Option ℤ) :
    (ConsistencyModel.check_inputs (some nsteps) none (some sh) b img cbs).isOk =
      false ∧
    ConsistencyModel.check_inputs (some 1) none (some [1, 3, 2, 2]) 1 2 (some 1) =
      Except.error "The shape of latents is not the expected shape." ∧
    ((ConsistencyModel.cmCall { testCMEnv with in_channels := 7 } 1 (some 1) none
        GenArg.none (some ⟨[1, 7, 2, 2], [[0]]⟩) false (some 1)).1).isOk = false := by
  exact ⟨rfl, by decide, by decide⟩

/-- C3: in the image2image denoising loop, the latent batch is duplicated
for a combined conditional/unconditional call exactly when
`guidance_scale > 1.0`; when guidance is enabled the prediction halves are
recombined as `uncond + guidance_scale * (cond - uncond)`; and at
`guidance_scale = 1` the duplication is disabled and the per-step prediction
is the conditional prediction (the U-Net applied to the unduplicated latents
with the positive prompt embedding alone). -/
theorem C3_theorem (env : Img2Img.Env) (gsc : ℚ) (latents pos neg : Tensor) (t : ℤ)
    (hl : latents ≠ ([] : Tensor)) :
    (Img2Img.latent_model_input gsc latents = Tensor.cat latents latents ↔ gsc > 1) ∧
    (¬gsc > 1 → Img2Img.latent_model_input gsc latents = latents) ∧
    (gsc > 1 →
      Img2Img.step_noise_pred env gsc
          (Img2Img.encode_prompt_combined (Img2Img.do_classifier_free_guidance gsc) pos neg)
          latents t =
        Img2Img.cfg_rule gsc
          ((env.unet (env.scale_model_input (Tensor.cat latents latents) t) t
              (Tensor.cat neg pos)).take
            ((env.unet (env.scale_model_input (Tensor.cat latents latents) t) t
                (Tensor.cat neg pos)).length / 2))
          ((env.unet (env.scale_model_input (Tensor.cat latents latents) t) t
              (Tensor.cat neg pos)).drop
            ((env.unet (env.scale_model_input (Tensor.cat latents latents) t) t
                (Tensor.cat neg pos)).length / 2))) ∧
    (gsc = 1 →
      Img2Img.step_noise_pred env gsc
          (Img2Img.encode_prompt_combined (Img2Img.do_classifier_free_guidance gsc) pos neg)
          latents t =
        env.unet (env.scale_model_input latents t) t pos) := by
  refine ⟨⟨?_, ?_⟩, ?_, ?_, ?_⟩
  · intro hdup
    by_contra hgs
    have heq : latents = Tensor.cat latents latents := by
      simpa [Img2Img.latent_model_input, Img2Img.do_classifier_free_guidance, hgs]
        using hdup
    have hlen := congrArg List.length heq
    simp only [Tensor.cat, List.append_eq, List.length_append] at hlen
    exact hl (List.length_eq_zero.mp (by omega))
  · intro hgs
    simp [Img2Img.latent_model_input, Img2Img.do_classifier_free_guidance, hgs]
  · intro hgs
    simp [Img2Img.latent_model_input, Img2Img.do_classifier_free_guidance, hgs]
  · intro hgs
    simp [Img2Img.step_noise_pred, Img2Img.latent_model_input,
      Img2Img.do_classifier_free_guidance, Img2Img.encode_prompt_combined,
      Img2Img.cfgCombine, hgs]
  · intro hgs
    subst hgs
    simp [Img2Img.step_noise_pred, Img2Img.latent_model_input,
      Img2Img.do_classifier_free_guidance, Img2Img.encode_prompt_combined]

/-- C3 (witness): the theorem applied at `guidance_scale = 1` with concrete
latents and embeddings: the prediction is the U-Net's conditional output. -/
theorem C3_witness :
    Img2Img.step_noise_pred testEnv 1
        (Img2Img.encode_prompt_combined (Img2Img.do_classifier_free_guidance 1)
          [[3]] [[4]]) [[1]] 0 =
      testEnv.unet (testEnv.scale_model_input [[1]] 0) 0 [[3]] :=
  (C3_theorem testEnv 1 [[1]] [[3]] [[4]] 0 (by decide)).2.2.2 rfl

/-- Trace of callback invocations of the consistency loop, started at index
`j`: exactly the indices `j, j+1, ...` whose value satisfies the modulo
condition. -/
lemma cm_loop_snd (env : ConsistencyModel.CMEnv) (cb : Bool) (k : ℤ) :
    ∀ (ts : List ℤ) (j : ℕ) (s : Tensor),
      (ConsistencyModel.cm_loop env cb k j s ts).2 =
        ((List.range ts.length).map (fun i => i + j)).filter
          (fun (i : ℕ) => decide (cb = true ∧ (i : ℤ) % k = 0)) := by
  intro ts
  induction ts with
  | nil => intro j s; rfl
  | cons t rest ih =>
    intro j s
    simp only [ConsistencyModel.cm_loop]
    rw [ih]
    rw [List.length_cons, List.range_succ_eq_map]
    simp only [List.map_cons, List.map_map, List.filter_cons]
    have hfun : ((fun i => i + j) ∘ Nat.succ) = fun i => i + (j + 1) := by
      funext i
      simp [Function.comp, Nat.succ_eq_add_one]
      omega
    rw [hfun, Nat.zero_add]
    cases hf : decide (cb = true ∧ (j : ℤ) % k = 0) <;> simp [hf]

/-- Trace of callback invocations of the img2img loop, started at index `j`:
exactly the indices whose value satisfies both the progress-bar condition and
the modulo condition. -/
lemma sd_loop_snd (env : Img2Img.Env) (gsc : ℚ) (pe : Tensor) (last : ℕ)
    (warm : ℤ) (cb : Bool) (k : ℤ) :
    ∀ (ts : List ℤ) (j : ℕ) (l : Tensor),
      (Img2Img.denoising_loop env gsc pe last warm cb k j l ts).2 =
        ((List.range ts.length).map (fun i => i + j)).filter
          (fun (i : ℕ) => decide ((i = last ∨
            ((i : ℤ) + 1 > warm ∧ ((i : ℤ) + 1) % (env.order : ℤ) = 0)) ∧
            cb = true ∧ (i : ℤ) % k = 0)) := by
  intro ts
  induction ts with
  | nil => intro j l; rfl
  | cons t rest ih =>
    intro j l
    simp only [Img2Img.denoising_loop]
    rw [ih]
    rw [List.length_cons, List.range_succ_eq_map]
    simp only [List.map_cons, List.map_map, List.filter_cons]
    have hfun : ((fun i => i + j) ∘ Nat.succ) = fun i => i + (j + 1) := by
      funext i
      simp [Function.comp, Nat.succ_eq_add_one]
      omega
    rw [hfun, Nat.zero_add]
    cases hf : decide ((j = last ∨
        ((j : ℤ) + 1 > warm ∧ ((j : ℤ) + 1) % (env.order : ℤ) = 0)) ∧
        cb = true ∧ (j : ℤ) % k = 0) <;> simp [hf]

/-- C4 (counterexample): consistency pipeline, two explicit timesteps
`[22, 0]`, a callback with `callback_steps = 2`: the callback fires only at
iteration 0; the final iteration (index 1) does not fire it, contradicting
"always also invoked on the final iteration". -/
theorem C4_counterexample :
    ((ConsistencyModel.cmCall testCMEnv 1 none (some [22, 0]) GenArg.none none true
        (some 2)).1).map (fun r => r.callback_iters) = Except.ok [0] ∧
    ¬(1 ∈ [0]) := by
  constructor
  · decide
  · decide

/-- C4 (amended): in the consistency loop the callback fires exactly at the
iterations `i` with `i % callback_steps == 0`; in the img2img loop it fires
exactly at the iterations satisfying both the progress-bar condition
(`i == len(timesteps)-1 or (i+1 > num_warmup_steps and (i+1) % order == 0)`)
and `i % callback_steps == 0`.  The final iteration is not special-cased for
the callback in either loop. -/
theorem C4_theorem :
    (∀ (env : ConsistencyModel.CMEnv) (cb : Bool) (k : ℤ) (s : Tensor) (ts : List ℤ),
      (ConsistencyModel.cm_loop env cb k 0 s ts).2 =
        (List.range ts.length).filter
          (fun (i : ℕ) => decide (cb = true ∧ (i : ℤ) % k = 0))) ∧
    (∀ (env : Img2Img.Env) (gsc : ℚ) (pe : Tensor) (last : ℕ) (warm : ℤ) (cb : Bool)
        (k : ℤ) (l : Tensor) (ts : List ℤ),
      (Img2Img.denoising_loop env gsc pe last warm cb k 0 l ts).2 =
        (List.range ts.length).filter
          (fun (i : ℕ) => decide ((i = last ∨
            ((i : ℤ) + 1 > warm ∧ ((i : ℤ) + 1) % (env.order : ℤ) = 0)) ∧
            cb = true ∧ (i : ℤ) % k = 0))) := by
  constructor
  · intro env cb k s ts
    rw [cm_loop_snd]
    simp
  · intro env gsc pe last warm cb k l ts
    rw [sd_loop_snd]
    simp

/-- C6: for the consistency pipeline, supplying neither `num_inference_steps`
nor `timesteps` fails with a `ValueError` before any model or scheduler call
(error result, empty collaborator trace); supplying both behaves exactly as
supplying only the explicit `timesteps` (they win); and the loop's step count
equals the length of the scheduler's resulting timestep sequence. -/
theorem C6_theorem (env : ConsistencyModel.CMEnv) (b : ℕ) (gen : GenArg)
    (lat : Option ConsistencyModel.CMLatents) (cb : Bool) (cbs : Option ℤ)
    (n : ℕ) (ts : List ℤ) :
    ConsistencyModel.cmCall env b none none gen lat cb cbs =
      (Except.error
        "Exactly one of num_inference_steps or timesteps must be supplied.", []) ∧
    ConsistencyModel.cmCall env b (some n) (some ts) gen lat cb cbs =
      ConsistencyModel.cmCall env b none (some ts) gen lat cb cbs ∧
    ((ConsistencyModel.cmCall env b (some n) (some ts) gen lat cb cbs).1).map
        (fun r => r.loop_total) =
      ((ConsistencyModel.cmCall env b (some n) (some ts) gen lat cb cbs).1).map
        (fun _ => (env.schedSetFromList ts).length) := by
  refine ⟨?_, ?_, ?_⟩
  · rfl
  · have hchk : ConsistencyModel.check_inputs (some n) (some ts)
        (lat.map fun l => l.shape) b env.sample_size cbs =
        ConsistencyModel.check_inputs none (some ts)
          (lat.map fun l => l.shape) b env.sample_size cbs := by
      simp [ConsistencyModel.check_inputs]
    simp only [ConsistencyModel.cmCall, hchk]
  · cases hc : ConsistencyModel.check_inputs (some n) (some ts)
        (lat.map fun l => l.shape) b env.sample_size cbs with
    | error e => simp only [ConsistencyModel.cmCall, hc]; rfl
    | ok u =>
      cases u
      rcases hp : ConsistencyModel.prepare_latents b env.in_channels env.sample_size
          env.sample_size gen env.init_noise_sigma env.randn
          (lat.map fun l => l.data) with ⟨pres, ptr⟩
      cases pres with
      | error e => simp only [ConsistencyModel.cmCall, hc, hp]; rfl
      | ok s0 => simp only [ConsistencyModel.cmCall, hc, hp]; rfl

/-- Validation rejects the prompt/prompt_embeds combinations "both supplied"
and "neither supplied" — whatever the other arguments are, `check_inputs`
returns an error in these two cases. -/
lemma sd_check_inputs_exclusive (prompt : Img2Img.PromptArg) (strength : ℚ)
    (cbs : Option ℤ) (np : Bool) (pes npes : Option (List ℕ))
    (h : (prompt ≠ Img2Img.PromptArg.none ∧ pes ≠ none) ∨
      (prompt = Img2Img.PromptArg.none ∧ pes = none)) :
    (Img2Img.check_inputs prompt strength cbs np pes npes).isOk = false := by
  rcases h with ⟨h1, h2⟩ | ⟨h1, h2⟩ <;>
    by_cases hs : strength < 0 ∨ strength > 1 <;>
      cases cbs with
      | none =>
        simp only [Img2Img.check_inputs, hs, h1, h2, Except.isOk, Except.toBool,
          if_true, if_false, ne_eq, not_false_eq_true, and_self, reduceIte] <;> rfl
      | some k =>
        by_cases hk : k ≤ 0 <;>
          simp only [Img2Img.check_inputs, hs, h1, h2, hk, Except.isOk, Except.toBool,
            if_true, if_false, ne_eq, not_false_eq_true, and_self, reduceIte] <;> rfl

/-- C7: for the image2image pipeline, supplying both `prompt` and
`prompt_embeds` always fails validation, and supplying neither also always
fails; in both cases the invocation returns the validation error with an
empty collaborator trace — before any model invocation. -/
theorem C7_theorem (env : Img2Img.Env) (prompt : Img2Img.PromptArg)
    (image : Img2Img.SDImage) (strength : ℚ) (nis : ℕ) (gsc : ℚ) (np : Bool)
    (nipp : ℕ) (gen : GenArg) (pe npe : Option Tensor) (ot : String) (cb : Bool)
    (cbs : Option ℤ)
    (h : (prompt ≠ Img2Img.PromptArg.none ∧ pe ≠ none) ∨
      (prompt = Img2Img.PromptArg.none ∧ pe = none)) :
    ((Img2Img.sdCall env prompt image strength nis gsc np nipp gen pe npe ot cb
        cbs).1).isOk = false ∧
    (Img2Img.sdCall env prompt image strength nis gsc np nipp gen pe npe ot cb
        cbs).2 = [] := by
  have hchk : (Img2Img.check_inputs prompt strength cbs np (pe.map Img2Img.shapeOf)
      (npe.map Img2Img.shapeOf)).isOk = false := by
    apply sd_check_inputs_exclusive
    rcases h with ⟨h1, h2⟩ | ⟨h1, h2⟩
    · refine Or.inl ⟨h1, ?_⟩
      cases pe with
      | none => exact absurd rfl h2
      | some x => simp
    · refine Or.inr ⟨h1, ?_⟩
      cases pe with
      | none => rfl
      | some x => exact absurd h2 (Option.some_ne_none x)
  cases hc : Img2Img.check_inputs prompt strength cbs np (pe.map Img2Img.shapeOf)
      (npe.map Img2Img.shapeOf) with
  | ok u => rw [hc] at hchk; simp [Except.isOk, Except.toBool] at hchk
  | error e =>
    constructor
    · simp only [Img2Img.sdCall, hc]; rfl
    · simp only [Img2Img.sdCall, hc]

/-- C7 (witness): the theorem applied with both a prompt string and a
prompt-embeddings tensor supplied. -/
theorem C7_witness :
    ((Img2Img.sdCall testEnv (Img2Img.PromptArg.str "p") ⟨4, [[1]]⟩ 1 10 1 false 1
        GenArg.none (some [[1]]) none "pil" false (some 1)).1).isOk = false ∧
    (Img2Img.sdCall testEnv (Img2Img.PromptArg.str "p") ⟨4, [[1]]⟩ 1 10 1 false 1
        GenArg.none (some [[1]]) none "pil" false (some 1)).2 = [] :=
  C7_theorem testEnv (Img2Img.PromptArg.str "p") ⟨4, [[1]]⟩ 1 10 1 false 1
    GenArg.none (some [[1]]) none "pil" false (some 1)
    (Or.inl ⟨by decide, by decide⟩)

/-- C5 (counterexample): an image2image invocation entered with
`num_inference_steps = 10` and `strength = 1/2` reaches the denoising-loop
phase observing a step count of 5, not the validated entry value 10 — the
step count is reassigned after validation by the timestep adapter. -/
theorem C5_counterexample :
    ((Img2Img.sdCall testEnv (Img2Img.PromptArg.str "p") ⟨4, [[1]]⟩ (1/2) 10 1 false 1
        GenArg.none none none "pil" false (some 1)).1).map
      (fun r => r.loopParams.num_inference_steps) = Except.ok 5 ∧
    (5 : ℤ) ≠ 10 := by
  constructor
  · norm_num [Img2Img.sdCall, Img2Img.check_inputs, Img2Img.get_timesteps, pyTrunc,
      Img2Img.prepare_latents, Img2Img.initLatentsPre, Img2Img.replicateLatents,
      Img2Img.denoising_loop, Img2Img.step_noise_pred, Img2Img.latent_model_input,
      Img2Img.do_classifier_free_guidance, Img2Img.encode_prompt_combined,
      Img2Img.shapeOf, testEnv, Except.map, List.range_succ]
    decide
  · decide

/-- C5 (amended): after validation, the strength, guidance scale, batch size
and output format observed by the denoising-loop phase equal the entry
values; the step count alone is recomputed — in image2image to the remaining
count returned by the timestep adapter, and in the consistency pipeline to
the length of the scheduler's timestep sequence when explicit timesteps are
supplied. -/
theorem C5_theorem (env : Img2Img.Env) (prompt : Img2Img.PromptArg)
    (image : Img2Img.SDImage) (strength : ℚ) (nis : ℕ) (gsc : ℚ) (np : Bool)
    (nipp : ℕ) (gen : GenArg) (pe npe : Option Tensor) (ot : String) (cb : Bool)
    (cbs : Option ℤ) :
    ((Img2Img.sdCall env prompt image strength nis gsc np nipp gen pe npe ot cb
        cbs).1).map (fun r => r.loopParams) =
      ((Img2Img.sdCall env prompt image strength nis gsc np nipp gen pe npe ot cb
          cbs).1).map (fun _ =>
        { strength := strength
          num_inference_steps :=
            (Img2Img.get_timesteps nis strength (env.setTimesteps nis) env.order).2
          guidance_scale := gsc
          batch_size :=
            match prompt with
            | Img2Img.PromptArg.str _ => 1
            | Img2Img.PromptArg.list l => l.length
            | _ => (pe.getD []).length
          output_type := ot }) ∧
    (∀ (cenv : ConsistencyModel.CMEnv) (b : ℕ) (nsteps : Option ℕ)
        (tsa : Option (List ℤ)) (gen2 : GenArg)
        (lat : Option ConsistencyModel.CMLatents) (cb2 : Bool) (cbs2 : Option ℤ),
      ((ConsistencyModel.cmCall cenv b nsteps tsa gen2 lat cb2 cbs2).1).map
          (fun r => r.loop_total) =
        ((ConsistencyModel.cmCall cenv b nsteps tsa gen2 lat cb2 cbs2).1).map
          (fun _ =>
            match tsa with
            | some tl => (cenv.schedSetFromList tl).length
            | none => nsteps.getD 0)) := by
  constructor
  · simp only [Img2Img.sdCall]
    split
    · rfl
    · split
      · rfl
      · rfl
  · intro cenv b nsteps tsa gen2 lat cb2 cbs2
    simp only [ConsistencyModel.cmCall]
    split
    · rfl
    · split
      · rfl
      · cases tsa <;> cases nsteps <;> rfl
